import Mathlib

/-!
Verification of the CV extraction and export service (`src/app.py`).

The Python source is shallowly embedded as executable Lean definitions.
External effects (the Gemini text/JSON model calls, PDF parsing, and the
Google Sheets/Drive API) are modelled as oracle functions supplied as
parameters: an oracle returning `none` models the underlying call raising
an exception.  Every function additionally returns the list of outbound
calls it performed, so that claims about which external calls are made
can be stated and settled.

Python-value conventions used throughout:
  - a Python value that is either a string or `None` is `Option String`;
  - Python truthiness of such a value (`if x:`) is `truthy`:
    `None` and `""` are falsy, every other string is truthy;
  - a Python dict with string keys (a parsed JSON object) is `CvData`,
    an association list preserving insertion order; `CvData.get` is
    `dict.get(key)` (absent key and null value both give `none`),
    `CvData.set` is `dict[key] = value`, `CvData.hasKey` is `key in dict`;
  - rendering a value into an f-string is `pyStr` (`None` prints "None").
-/

/-- Python truthiness of a string-or-None value: `None` and `""` are falsy. -/
def truthy : Option String → Bool
  | none => false
  | some s => !(s == "")

/-- How a Python f-string renders a string-or-None value. -/
def pyStr : Option String → String
  | none => "None"
  | some s => s

/-- A parsed JSON object / Python dict with string keys and
string-or-null values, in insertion order. -/
abbrev CvData := List (String × Option String)

/-- `dict.get(key)`: `none` when the key is absent or its value is null. -/
def CvData.get : CvData → String → Option String
  | [], _ => none
  | (k, v) :: rest, key => if k = key then v else CvData.get rest key

/-- `dict[key] = value`: replace the first binding in place, else append. -/
def CvData.set : CvData → String → Option String → CvData
  | [], key, v => [(key, v)]
  | (k, w) :: rest, key, v =>
      if k = key then (key, v) :: rest else (k, w) :: CvData.set rest key v

/-- `key in dict`: the key is present (its value may still be null). -/
def CvData.hasKey : CvData → String → Bool
  | [], _ => false
  | (k, _) :: rest, key => k == key || CvData.hasKey rest key

/-- `dict.get(key, default)` support: `none` when the key is absent,
`some v` when the key is bound to `v` (which may itself be null). -/
def CvData.lookupVal : CvData → String → Option (Option String)
  | [], _ => none
  | (k, v) :: rest, key => if k = key then some v else CvData.lookupVal rest key

/-- Python `a or b` on string-or-None values: `a` when truthy, else `b`. -/
def pyOr (a b : Option String) : Option String :=
  if truthy a = true then a else b

/-- One outbound call performed while handling an upload request. -/
inductive CallEvent
  | pdfParse
  | extractCall
  | provinceCall (location : String)
  | nameLangCall (name : String)
  | provLangCall (province : String)
  | arbitrationCall
deriving DecidableEq

/-- The Gemini text-model black box.  Each field models one
`generate_content(...).text.strip()` shape used by the source; a `none`
result models the call raising an exception. -/
structure Oracle where
  provinceOf : String → Option String
  langOfName : String → Option String
  langOfProvince : String → Option String
  arbitrate : Option String → Option String → Option String → Option String → Option String

/-- `get_language_from_name` from `src/app.py`: `"Error"` when the text
model is unconfigured, `None` for a falsy name, otherwise one model call
whose failure degrades to `"Error"`. -/
def get_language_from_name (tcfg : Bool) (g : Oracle) (name : Option String) :
    Option String × List CallEvent :=
  if tcfg = false then (some "Error", [])
  else if truthy name = false then (none, [])
  else
    match g.langOfName (pyStr name) with
    | some s => (some s, [CallEvent.nameLangCall (pyStr name)])
    | none => (some "Error", [CallEvent.nameLangCall (pyStr name)])

/-- `get_province_from_location` from `src/app.py`. -/
def get_province_from_location (tcfg : Bool) (g : Oracle) (loc : Option String) :
    Option String × List CallEvent :=
  if tcfg = false then (some "Error", [])
  else if truthy loc = false then (none, [])
  else
    match g.provinceOf (pyStr loc) with
    | some s => (some s, [CallEvent.provinceCall (pyStr loc)])
    | none => (some "Error", [CallEvent.provinceCall (pyStr loc)])

/-- `get_dominant_language_for_province` from `src/app.py`: the
unconfigured-model check precedes the null/`"Unknown"`/`"Error"` check. -/
def get_dominant_language_for_province (tcfg : Bool) (g : Oracle) (prov : Option String) :
    Option String × List CallEvent :=
  if tcfg = false then (some "Error", [])
  else if truthy prov = false ∨ prov = some "Unknown" ∨ prov = some "Error" then (none, [])
  else
    match g.langOfProvince (pyStr prov) with
    | some s => (some s, [CallEvent.provLangCall (pyStr prov)])
    | none => (some "Error", [CallEvent.provLangCall (pyStr prov)])

/-- `reinvestigate_language_discrepancy` from `src/app.py`: no null check,
one model call whose failure degrades to `"Error"`. -/
def reinvestigate_language_discrepancy (tcfg : Bool) (g : Oracle)
    (name nameLang province provLang : Option String) : String × List CallEvent :=
  if tcfg = false then ("Error", [])
  else
    match g.arbitrate name nameLang province provLang with
    | some s => (s, [CallEvent.arbitrationCall])
    | none => ("Error", [CallEvent.arbitrationCall])

/-- The province-resolution step of `upload_and_process_cv`
(`src/app.py` lines 125-129): when the extracted `Province` is falsy,
take `City or Town` and, when that location is truthy, resolve it with
one call; the result is written back into the dict.  Returns the
resolved province, the updated dict, and the calls made. -/
def resolveProvince (tcfg : Bool) (g : Oracle) (cv : CvData) :
    Option String × CvData × List CallEvent :=
  let province := CvData.get cv "Province"
  if truthy province = true then (province, cv, [])
  else
    let location := pyOr (CvData.get cv "City") (CvData.get cv "Town")
    let pr := if truthy location = true then get_province_from_location tcfg g location
              else (none, [])
    (pr.1, CvData.set cv "Province" pr.1, pr.2)

/-- The language-reconciliation step of `upload_and_process_cv`
(`src/app.py` lines 131-139): the final language defaults to the
name-based estimate with note "Name-based prediction."; when both
estimates are Python-truthy and differ the arbitration call decides and
the note records the discrepancy; when both are truthy and equal the
note records alignment.  Returns (final language, note, arbitration
calls made). -/
def reconcile (tcfg : Bool) (g : Oracle) (name province : Option String) :
    Option String × String × List CallEvent :=
  let nl := (get_language_from_name tcfg g name).1
  let pl := (get_dominant_language_for_province tcfg g province).1
  if truthy nl = true ∧ truthy pl = true ∧ nl ≠ pl then
    let r := reinvestigate_language_discrepancy tcfg g name nl province pl
    (some r.1,
     "Discrepancy (Name: " ++ pyStr nl ++ ", Province: " ++ pyStr pl ++ "). Re-investigated.",
     r.2)
  else if truthy nl = true ∧ truthy pl = true ∧ nl = pl then
    (nl, "Name (" ++ pyStr nl ++ ") & Province (" ++ pyStr pl ++ ") align.", [])
  else
    (nl, "Name-based prediction.", [])

/-- The fixed output schema `final_order` of `src/app.py` line 144. -/
def final_order : List String :=
  ["Name and Surname", "Contact number", "Email address", "Town", "City", "Province",
   "Race", "Qualification", "University of Qualification", "Year of Qualification",
   "Current place of work", "First Language", "Second Language",
   "Dominant Province Language", "Final Predicted Native Language",
   "Language Assessment Note"]

/-- The post-extraction body of `upload_and_process_cv` (`src/app.py`
lines 124-147): resolve the province, compute both language estimates,
reconcile, store the three derived fields, and rebuild the record in
`final_order` with `cv_data.get(key)` per key.  Returns the ordered
record and the model calls made, in call order. -/
def processCvData (tcfg : Bool) (g : Oracle) (cv0 : CvData) : CvData × List CallEvent :=
  let name := CvData.get cv0 "Name and Surname"
  let rp := resolveProvince tcfg g cv0
  let nlr := get_language_from_name tcfg g name
  let plr := get_dominant_language_for_province tcfg g rp.1
  let rc := reconcile tcfg g name rp.1
  let cv2 := CvData.set (CvData.set (CvData.set rp.2.1
      "Dominant Province Language" plr.1)
      "Final Predicted Native Language" rc.1)
      "Language Assessment Note" (some rc.2.1)
  (final_order.map fun k => (k, CvData.get cv2 k), rp.2.2 ++ nlr.2 ++ plr.2 ++ rc.2.2)

/-- The name-based language estimate as `upload_and_process_cv` computes it. -/
def nameLangOf (tcfg : Bool) (g : Oracle) (cv : CvData) : Option String :=
  (get_language_from_name tcfg g (CvData.get cv "Name and Surname")).1

/-- The resolved province as `upload_and_process_cv` computes it. -/
def provOf (tcfg : Bool) (g : Oracle) (cv : CvData) : Option String :=
  (resolveProvince tcfg g cv).1

/-- The province-based language estimate as `upload_and_process_cv` computes it. -/
def provLangOf (tcfg : Bool) (g : Oracle) (cv : CvData) : Option String :=
  (get_dominant_language_for_province tcfg g (provOf tcfg g cv)).1

/-- The "Final Predicted Native Language" field of the returned record. -/
def finalLangOf (tcfg : Bool) (g : Oracle) (cv : CvData) : Option String :=
  CvData.get (processCvData tcfg g cv).1 "Final Predicted Native Language"

/-- The "Language Assessment Note" field of the returned record. -/
def noteOf (tcfg : Bool) (g : Oracle) (cv : CvData) : Option String :=
  CvData.get (processCvData tcfg g cv).1 "Language Assessment Note"

/-- The process-wide backend state of `src/app.py`: which services were
configured at startup, plus the black-box behaviour of the PDF parser
and of the JSON-mode model on this request's file. -/
structure Backend where
  textModel : Bool
  jsonModel : Bool
  g : Oracle
  pdfText : Except String String
  extractInfo : String → Option CvData

/-- An inbound multipart upload request, as `upload_and_process_cv` sees it. -/
structure UploadRequest where
  hasFilePart : Bool
  filename : String

/-- The JSON body of an upload response: an error object or a record. -/
inductive RespBody
  | errMsg (msg : String)
  | record (rec : CvData)
deriving DecidableEq

/-- An HTTP response of the upload endpoint. -/
structure UploadResponse where
  status : Nat
  body : RespBody
deriving DecidableEq

/-- Python `filename.lower()`, character-wise over the string's
characters (the filenames checked here are ASCII, where `Char.toLower`
agrees with CPython's `str.lower`). -/
def pyLower (s : String) : String := String.mk (s.data.map Char.toLower)

/-- Python `s.endswith(suff)`. -/
def pyEndsWith (s suff : String) : Bool := List.isSuffixOf suff.data s.data

/-- `extract_cv_info` from `src/app.py`: an error dict when the JSON
model is unconfigured, otherwise one backend call whose exception (or
unparseable output) degrades to an error dict. -/
def extract_cv_info (be : Backend) (txt : String) : CvData × List CallEvent :=
  if be.jsonModel = false then ([("error", some "JSON Model not configured.")], [])
  else
    match be.extractInfo txt with
    | some d => (d, [CallEvent.extractCall])
    | none => ([("error", some "Error calling Gemini for CV data")], [CallEvent.extractCall])

/-- The `/upload` endpoint `upload_and_process_cv` (`src/app.py`
lines 111-147): three request guards, PDF text extraction, field
extraction (an `"error"` key aborts with 500), then `processCvData`.
Returns the response and the parsing/model calls made. -/
def upload_and_process_cv (be : Backend) (req : UploadRequest) :
    UploadResponse × List CallEvent :=
  if req.hasFilePart = false then
    ({status := 400, body := RespBody.errMsg "No file part"}, [])
  else if req.filename = "" then
    ({status := 400, body := RespBody.errMsg "No file selected"}, [])
  else if pyEndsWith (pyLower req.filename) ".pdf" = false then
    ({status := 400, body := RespBody.errMsg "Please upload a PDF"}, [])
  else
    match be.pdfText with
    | Except.error e => ({status := 500, body := RespBody.errMsg e}, [CallEvent.pdfParse])
    | Except.ok txt =>
      let ex := extract_cv_info be txt
      if CvData.hasKey ex.1 "error" = true then
        ({status := 500, body := RespBody.errMsg (pyStr (CvData.get ex.1 "error"))},
         CallEvent.pdfParse :: ex.2)
      else
        let pr := processCvData be.textModel be.g ex.1
        ({status := 200, body := RespBody.record pr.1}, CallEvent.pdfParse :: ex.2 ++ pr.2)

/-- The Sheets/Drive backend state of `src/app.py`: configured-service
flags plus black-box create/update/permission calls; `none`/`false`
models the call raising. -/
structure SheetsEnv where
  sheetsOk : Bool
  driveOk : Bool
  create : String → Option (String × String)
  updateVals : String → List (List (Option String)) → Bool
  permit : String → Bool

/-- One outbound Google API call performed by the export endpoint. -/
inductive ExportEvent
  | createCall (title : String)
  | updateCall (sheetId : String) (values : List (List (Option String)))
  | permissionCall (sheetId : String)
deriving DecidableEq

/-- The JSON body of an export response. -/
inductive ExportBody
  | errMsg (msg : String)
  | sheetUrl (url : String)
deriving DecidableEq

/-- An HTTP response of the export endpoint. -/
structure ExportResponse where
  status : Nat
  body : ExportBody
deriving DecidableEq

/-- Python truthiness of the parsed export payload (`if not cv_data:`):
a missing/unparseable body and an empty object are both falsy. -/
def payloadTruthy : Option CvData → Bool
  | none => false
  | some cv => !cv.isEmpty

/-- The `/export` endpoint `export_to_sheets` (`src/app.py` lines
149-185): service check, payload truthiness check, then one sheet
creation (titled after the candidate name), one values update writing
the dict items as `[key, value]` rows starting at A1, and one
permission call; any raising call yields a 500.  Returns the response
and the Google API calls made, in call order. -/
def export_to_sheets (env : SheetsEnv) (payload : Option CvData) :
    ExportResponse × List ExportEvent :=
  if env.sheetsOk = false ∨ env.driveOk = false then
    ({status := 500,
      body := ExportBody.errMsg "Google API service not available. Check backend logs."}, [])
  else if payloadTruthy payload = false then
    ({status := 400, body := ExportBody.errMsg "No data received for export."}, [])
  else
    let cv := payload.getD []
    let candidate_name :=
      match CvData.lookupVal cv "Name and Surname" with
      | none => "New Candidate"
      | some v => pyStr v
    let title := "CV Analysis - " ++ candidate_name
    match env.create title with
    | none =>
      ({status := 500,
        body := ExportBody.errMsg "Failed to create Google Sheet. Check the backend terminal for detailed errors."},
       [ExportEvent.createCall title])
    | some (url, sid) =>
      let values := cv.map fun kv => [some kv.1, kv.2]
      if env.updateVals sid values = false then
        ({status := 500,
          body := ExportBody.errMsg "Failed to create Google Sheet. Check the backend terminal for detailed errors."},
         [ExportEvent.createCall title, ExportEvent.updateCall sid values])
      else if env.permit sid = false then
        ({status := 500,
          body := ExportBody.errMsg "Failed to create Google Sheet. Check the backend terminal for detailed errors."},
         [ExportEvent.createCall title, ExportEvent.updateCall sid values,
          ExportEvent.permissionCall sid])
      else
        ({status := 200, body := ExportBody.sheetUrl url},
         [ExportEvent.createCall title, ExportEvent.updateCall sid values,
          ExportEvent.permissionCall sid])

/-- Two separate export requests with the same payload: `src/app.py`
keeps no cross-request state for `/export` (no cache of any kind), so
the second request repeats the same computation as the first. -/
def runTwice (env : SheetsEnv) (payload : Option CvData) :
    (ExportResponse × List ExportEvent) × (ExportResponse × List ExportEvent) :=
  (export_to_sheets env payload, export_to_sheets env payload)

/-- Number of sheet-creation calls in an export trace. -/
def numCreates (evs : List ExportEvent) : Nat :=
  evs.countP fun e =>
    match e with
    | ExportEvent.createCall _ => true
    | _ => false

/-- The row block written by the first values-update call of a trace, if any. -/
def updatedRows (evs : List ExportEvent) : Option (List (List (Option String))) :=
  evs.findSome? fun e =>
    match e with
    | ExportEvent.updateCall _ vs => some vs
    | _ => none

/-- Modelled from the spec: the known routing-label set.  `src/app.py`
defines no routing labels at all; the spec describes a small fixed set
of role categories (e.g. "actuarial") with a designated fallback, so a
two-element set stands in for it.  Only non-membership of a fresh label
is used below, so the exact contents are immaterial. -/
def knownLabels : List String := ["actuarial", "general"]

/-- A payload record carries a routing label outside the known set. -/
def hasUnknownLabel (cv : CvData) : Bool :=
  match CvData.get cv "label" with
  | some v => !(knownLabels.contains v)
  | none => false

/-- An oracle all of whose calls raise. -/
def oracleNone : Oracle := ⟨fun _ => none, fun _ => none, fun _ => none, fun _ _ _ _ => none⟩

/-- Oracle for the record with only a province: the province-language
call answers, nothing else is ever asked. -/
def gC1 : Oracle := ⟨fun _ => none, fun _ => none,
  fun p => if p = "Gauteng" then some "Sesotho" else none, fun _ _ _ _ => none⟩

/-- A record carrying only a province, so only the province-based
language estimate is present. -/
def cvC1 : CvData := [("Province", some "Gauteng")]

/-- Oracle whose name-language call raises (degrading to `"Error"`)
while the province-language call answers. -/
def gC2 : Oracle := ⟨fun _ => none, fun _ => none,
  fun p => if p = "KwaZulu-Natal" then some "isiZulu" else none, fun _ _ _ _ => none⟩

/-- A record with a name and a province, for the error-sentinel
arbitration scenario. -/
def cvC2 : CvData := [("Name and Surname", some "X"), ("Province", some "KwaZulu-Natal")]

/-- A Sheets/Drive backend in which every call succeeds. -/
def envOk : SheetsEnv := ⟨true, true, fun _ => some ("https://sheets.example/u1", "sheet-1"),
  fun _ _ => true, fun _ => true⟩

/-- A one-field export payload record. -/
def cvC8 : CvData := [("Name and Surname", some "Jane Doe")]

/-- The same record as a parsed request payload. -/
def pC3 : Option CvData := some cvC8

/-- A payload whose record carries a routing label outside `knownLabels`. -/
def pC7 : Option CvData := some [("label", some "zzz")]

/-- A backend whose JSON-extraction call raises on every document. -/
def beC4 : Backend := ⟨true, true, oracleNone, Except.ok "cv text", fun _ => none⟩

/-- A well-formed PDF upload request. -/
def reqC4 : UploadRequest := ⟨true, "cv.pdf"⟩

/-- An upload request with no file part. -/
def reqBad : UploadRequest := ⟨false, "cv.pdf"⟩

/-- Oracle mapping Durban to KwaZulu-Natal and Soweto to Gauteng. -/
def gC6 : Oracle := ⟨fun s => if s = "Durban" then some "KwaZulu-Natal"
    else if s = "Soweto" then some "Gauteng" else none,
  fun _ => none, fun _ => none, fun _ _ _ _ => none⟩

/-- A record with both a Town and a City but no Province. -/
def cvC6 : CvData := [("Town", some "Soweto"), ("City", some "Durban")]

/-- Claim C1 as stated: whenever exactly one of the two language
estimates is present (non-null) the final predicted language equals the
present estimate, and when both are null the final value is null. -/
def C1Claim : Prop :=
  ∀ (tcfg : Bool) (g : Oracle) (cv : CvData),
    (nameLangOf tcfg g cv ≠ none ∧ provLangOf tcfg g cv = none →
      finalLangOf tcfg g cv = nameLangOf tcfg g cv) ∧
    (nameLangOf tcfg g cv = none ∧ provLangOf tcfg g cv ≠ none →
      finalLangOf tcfg g cv = provLangOf tcfg g cv) ∧
    (nameLangOf tcfg g cv = none ∧ provLangOf tcfg g cv = none →
      finalLangOf tcfg g cv = none)

/-- Claim C2 as stated: the arbitration call happens iff both estimates
are present in the sense of non-null AND not the `"Error"` sentinel,
and they differ. -/
def C2Claim : Prop :=
  ∀ (tcfg : Bool) (g : Oracle) (cv : CvData),
    CallEvent.arbitrationCall ∈ (processCvData tcfg g cv).2 ↔
      (nameLangOf tcfg g cv ≠ none ∧ nameLangOf tcfg g cv ≠ some "Error" ∧
       provLangOf tcfg g cv ≠ none ∧ provLangOf tcfg g cv ≠ some "Error" ∧
       nameLangOf tcfg g cv ≠ provLangOf tcfg g cv)

/-- Claim C3 as stated: across two separate export requests for the
same data, both successful, at most one sheet-creation call is made
(the second request reuses the first identifier from a cache). -/
def C3Claim : Prop :=
  ∀ (env : SheetsEnv) (payload : Option CvData),
    (runTwice env payload).1.1.status = 200 →
    (runTwice env payload).2.1.status = 200 →
    numCreates (runTwice env payload).1.2 + numCreates (runTwice env payload).2.2 ≤ 1

/-- Claim C4 as stated (specialized to this endpoint's one document per
request): a document whose extraction fails is silently omitted, so a
request whose file guards pass and whose PDF parses never yields a
per-document error response. -/
def C4Claim : Prop :=
  ∀ (be : Backend) (req : UploadRequest) (txt : String),
    req.hasFilePart = true → req.filename ≠ "" →
    pyEndsWith (pyLower req.filename) ".pdf" = true →
    be.pdfText = Except.ok txt →
    (upload_and_process_cv be req).1.status ≠ 500 ∧
    ∀ m, (upload_and_process_cv be req).1.body ≠ RespBody.errMsg m

/-- Claim C6 as stated: with the province absent, the narrower Town
field is preferred as the inference input and City is the fallback;
with no location the province stays null and no call is made. -/
def C6Claim : Prop :=
  ∀ (g : Oracle) (cv : CvData),
    truthy (CvData.get cv "Province") = false →
    (truthy (CvData.get cv "Town") = true →
      (resolveProvince true g cv).2.2 =
        [CallEvent.provinceCall (pyStr (CvData.get cv "Town"))]) ∧
    (truthy (CvData.get cv "Town") = false → truthy (CvData.get cv "City") = true →
      (resolveProvince true g cv).2.2 =
        [CallEvent.provinceCall (pyStr (CvData.get cv "City"))]) ∧
    (truthy (CvData.get cv "Town") = false → truthy (CvData.get cv "City") = false →
      (resolveProvince true g cv).1 = none ∧ (resolveProvince true g cv).2.2 = [])

/-- Claim C7 as stated: an empty batch, or a record carrying a routing
label outside the known set, makes the export fail with a validation
error before any external call. -/
def C7Claim : Prop :=
  ∀ (env : SheetsEnv) (payload : Option CvData),
    env.sheetsOk = true → env.driveOk = true →
    (payloadTruthy payload = false ∨
      (∃ cv, payload = some cv ∧ hasUnknownLabel cv = true)) →
    (export_to_sheets env payload).1.status = 400 ∧ (export_to_sheets env payload).2 = []

/-- Claim C8 as stated (for a one-record payload): the block written to
a newly created sheet is the schema header row followed by the record's
row of values, in schema order. -/
def C8Claim : Prop :=
  ∀ (env : SheetsEnv) (cv : CvData) (vs : List (List (Option String))),
    updatedRows (export_to_sheets env (some cv)).2 = some vs →
    vs.head? = some (final_order.map fun k => (some k : Option String)) ∧
    vs.tail = [final_order.map fun k => CvData.get cv k]

/-- Claim C9 as stated: a null, `"Unknown"` or `"Error"` province always
yields a null estimate with no inference call. -/
def C9Claim : Prop :=
  ∀ (tcfg : Bool) (g : Oracle) (prov : Option String),
    (prov = none ∨ prov = some "Unknown" ∨ prov = some "Error") →
    get_dominant_language_for_province tcfg g prov = (none, [])

/-- The schema invariant a response body must satisfy: an error body
vacuously, a record body by listing exactly the schema keys in order. -/
def recordKeysOk : RespBody → Prop
  | RespBody.errMsg _ => True
  | RespBody.record r => r.map Prod.fst = final_order

theorem CvData.get_set_self (cv : CvData) (k : String) (v : Option String) :
    CvData.get (CvData.set cv k v) k = v := by
  induction cv with
  | nil => simp [CvData.set, CvData.get]
  | cons p t ih =>
    obtain ⟨a, b⟩ := p
    by_cases hak : a = k
    · subst hak
      simp [CvData.set, CvData.get]
    · simp [CvData.set, CvData.get, hak, ih]

theorem CvData.get_set_ne (cv : CvData) (k q : String) (v : Option String) (h : k ≠ q) :
    CvData.get (CvData.set cv k v) q = CvData.get cv q := by
  induction cv with
  | nil => simp [CvData.set, CvData.get, h]
  | cons p t ih =>
    obtain ⟨a, b⟩ := p
    by_cases hak : a = k
    · subst hak
      simp [CvData.set, CvData.get, h]
    · simp [CvData.set, CvData.get, hak, ih]

theorem CvData.get_map_pairs (l : List String) (f : String → Option String) (k : String)
    (hk : k ∈ l) : CvData.get (l.map fun x => (x, f x)) k = f k := by
  induction l with
  | nil => cases hk
  | cons a t ih =>
    by_cases hak : a = k
    · subst hak
      simp [CvData.get]
    · rcases List.mem_cons.mp hk with h | h
      · exact absurd h.symm hak
      · simp [CvData.get, hak, ih h]

theorem processCvData_fst_keys (tcfg : Bool) (g : Oracle) (cv : CvData) :
    (processCvData tcfg g cv).1.map Prod.fst = final_order := rfl

theorem finalLangOf_eq (tcfg : Bool) (g : Oracle) (cv : CvData) :
    finalLangOf tcfg g cv =
      (reconcile tcfg g (CvData.get cv "Name and Surname") (provOf tcfg g cv)).1 := by
  simp only [finalLangOf, processCvData, provOf]
  rw [CvData.get_map_pairs _ _ _ (by decide), CvData.get_set_ne _ _ _ _ (by decide),
    CvData.get_set_self]

theorem noteOf_eq (tcfg : Bool) (g : Oracle) (cv : CvData) :
    noteOf tcfg g cv =
      some (reconcile tcfg g (CvData.get cv "Name and Surname") (provOf tcfg g cv)).2.1 := by
  simp only [noteOf, processCvData, provOf]
  rw [CvData.get_map_pairs _ _ _ (by decide), CvData.get_set_self]

theorem reconcile_default (tcfg : Bool) (g : Oracle) (name prov : Option String)
    (h : ¬(truthy (get_language_from_name tcfg g name).1 = true ∧
           truthy (get_dominant_language_for_province tcfg g prov).1 = true)) :
    reconcile tcfg g name prov =
      ((get_language_from_name tcfg g name).1, "Name-based prediction.", []) := by
  simp only [reconcile]
  rw [if_neg fun hc => h ⟨hc.1, hc.2.1⟩, if_neg fun hc => h ⟨hc.1, hc.2.1⟩]

theorem arb_not_mem_name_events (tcfg : Bool) (g : Oracle) (n : Option String) :
    CallEvent.arbitrationCall ∉ (get_language_from_name tcfg g n).2 := by
  unfold get_language_from_name
  split
  · simp
  · split
    · simp
    · split <;> simp

theorem arb_not_mem_provloc_events (tcfg : Bool) (g : Oracle) (loc : Option String) :
    CallEvent.arbitrationCall ∉ (get_province_from_location tcfg g loc).2 := by
  unfold get_province_from_location
  split
  · simp
  · split
    · simp
    · split <;> simp

theorem arb_not_mem_domlang_events (tcfg : Bool) (g : Oracle) (p : Option String) :
    CallEvent.arbitrationCall ∉ (get_dominant_language_for_province tcfg g p).2 := by
  unfold get_dominant_language_for_province
  split
  · simp
  · split
    · simp
    · split <;> simp

theorem arb_not_mem_resolve_events (tcfg : Bool) (g : Oracle) (cv : CvData) :
    CallEvent.arbitrationCall ∉ (resolveProvince tcfg g cv).2.2 := by
  simp only [resolveProvince]
  split
  · simp
  · dsimp only
    split
    · exact arb_not_mem_provloc_events tcfg g _
    · simp

theorem reinvestigate_events (tcfg : Bool) (g : Oracle) (a b c d : Option String) :
    (reinvestigate_language_discrepancy tcfg g a b c d).2 =
      if tcfg = false then [] else [CallEvent.arbitrationCall] := by
  unfold reinvestigate_language_discrepancy
  split
  · simp_all
  · split <;> simp_all

theorem reconcile_false_events (g : Oracle) (n p : Option String) :
    (reconcile false g n p).2.2 = [] := by
  have h1 : ¬(truthy (get_language_from_name false g n).1 = true ∧
      truthy (get_dominant_language_for_province false g p).1 = true ∧
      (get_language_from_name false g n).1 ≠ (get_dominant_language_for_province false g p).1) :=
    fun h => h.2.2 rfl
  simp only [reconcile]
  rw [if_neg h1, if_pos ⟨rfl, rfl, rfl⟩]

theorem arb_mem_reconcile (tcfg : Bool) (g : Oracle) (n p : Option String) :
    CallEvent.arbitrationCall ∈ (reconcile tcfg g n p).2.2 ↔
      (truthy (get_language_from_name tcfg g n).1 = true ∧
       truthy (get_dominant_language_for_province tcfg g p).1 = true ∧
       (get_language_from_name tcfg g n).1 ≠ (get_dominant_language_for_province tcfg g p).1) := by
  cases tcfg with
  | false =>
    rw [reconcile_false_events]
    simp only [List.not_mem_nil, false_iff]
    intro h
    exact h.2.2 rfl
  | true =>
    simp only [reconcile]
    split
    next h1 =>
      dsimp only
      rw [reinvestigate_events]
      exact iff_of_true (by simp) h1
    next h1 =>
      split
      next h2 =>
        simp only [List.not_mem_nil, false_iff]
        intro hr
        exact hr.2.2 h2.2.2
      next h2 =>
        simp only [List.not_mem_nil, false_iff]
        exact h1

/-- C1 (amended): whenever the two estimates are not both Python-truthy
— in particular when at most one is present — the final predicted
native language is the name-based estimate (so a province-only estimate
is never promoted and both-null yields null) and the assessment note is
the default "Name-based prediction.". -/
theorem final_language_defaults_to_name_estimate (tcfg : Bool) (g : Oracle) (cv : CvData)
    (h : ¬(truthy (nameLangOf tcfg g cv) = true ∧ truthy (provLangOf tcfg g cv) = true)) :
    finalLangOf tcfg g cv = nameLangOf tcfg g cv ∧
    noteOf tcfg g cv = some "Name-based prediction." := by
  have hr := reconcile_default tcfg g (CvData.get cv "Name and Surname") (provOf tcfg g cv) h
  constructor
  · rw [finalLangOf_eq, hr]
    rfl
  · rw [noteOf_eq, hr]

/-- Witness for C1's amended theorem at a concrete record with neither
estimate present. -/
theorem final_language_defaults_to_name_estimate_witness :
    finalLangOf true oracleNone [] = nameLangOf true oracleNone [] ∧
    noteOf true oracleNone [] = some "Name-based prediction." :=
  final_language_defaults_to_name_estimate true oracleNone [] (by decide)

/-- C1 as stated is false: on a record carrying only a province, the
province-based estimate is present and the name-based one is null, yet
the final predicted language is null rather than the present estimate. -/
theorem single_present_estimate_claim_false : ¬ C1Claim := by
  intro h
  have h2 := (h true gC1 cvC1).2.1 ⟨by decide, by decide⟩
  exact absurd h2 (by decide)

/-- C2 (amended): the arbitration call is made iff both estimates are
Python-truthy and differ; the `"Error"` sentinel is truthy, so it
counts as a present estimate and can trigger arbitration. -/
theorem arbitration_iff_both_truthy_and_differ (tcfg : Bool) (g : Oracle) (cv : CvData) :
    CallEvent.arbitrationCall ∈ (processCvData tcfg g cv).2 ↔
      (truthy (nameLangOf tcfg g cv) = true ∧ truthy (provLangOf tcfg g cv) = true ∧
       nameLangOf tcfg g cv ≠ provLangOf tcfg g cv) := by
  have h1 := arb_not_mem_resolve_events tcfg g cv
  have h2 := arb_not_mem_name_events tcfg g (CvData.get cv "Name and Surname")
  have h3 := arb_not_mem_domlang_events tcfg g (resolveProvince tcfg g cv).1
  simp only [processCvData, List.mem_append, h1, h2, h3, false_or]
  exact arb_mem_reconcile tcfg g (CvData.get cv "Name and Surname") (resolveProvince tcfg g cv).1

/-- C2 as stated is false: when the name-language call fails, the
name-based estimate is the `"Error"` sentinel, yet arbitration is still
invoked against a differing province-based estimate. -/
theorem arbitration_error_sentinel_claim_false : ¬ C2Claim := by
  intro h
  have h2 := (h true gC2 cvC2).mp (by decide)
  exact h2.2.1 (by decide)

/-- C3 (amended): every export request that returns success made
exactly one fresh sheet-creation call; there is no label-to-identifier
cache in the code, so two separate requests create two sheets. -/
theorem export_always_creates_sheet (env : SheetsEnv) (payload : Option CvData)
    (h : (export_to_sheets env payload).1.status = 200) :
    numCreates (export_to_sheets env payload).2 = 1 := by
  revert h
  simp only [export_to_sheets]
  split
  · intro h
    simp at h
  · split
    · intro h
      simp at h
    · split
      · intro h
        simp at h
      · split
        · intro h
          simp at h
        · split
          · intro h
            simp at h
          · intro _
            rfl

/-- Witness for C3's amended theorem on a concrete successful export. -/
theorem export_always_creates_sheet_witness :
    numCreates (export_to_sheets envOk pC3).2 = 1 :=
  export_always_creates_sheet envOk pC3 (by decide)

/-- C3 as stated is false: two separate successful export requests for
the same payload make two sheet-creation calls, not at most one. -/
theorem export_idempotence_claim_false : ¬ C3Claim := by
  intro h
  exact absurd (h envOk pC3 (by decide) (by decide)) (by decide)

/-- C5 (confirmed): every record body returned by the upload endpoint
lists exactly the fixed schema keys of `final_order`, in order, with
every key present (absent source data appears as an explicit null
value, never as a missing key). -/
theorem upload_record_schema_fixed (be : Backend) (req : UploadRequest) :
    recordKeysOk (upload_and_process_cv be req).1.body := by
  simp only [upload_and_process_cv]
  split
  · exact trivial
  · split
    · exact trivial
    · split
      · exact trivial
      · split
        · exact trivial
        · split
          · exact trivial
          · exact processCvData_fst_keys _ _ _

/-- C4 (amended): the endpoint handles one document per request; when
the file guards pass, the PDF parses, and extraction fails (the
extracted dict carries an `"error"` key), the request returns a 500
response with an error object — the failed document is reported, not
silently omitted, and there is no result array. -/
theorem upload_returns_error_on_extraction_failure (be : Backend) (req : UploadRequest)
    (txt : String) (h1 : req.hasFilePart = true) (h2 : req.filename ≠ "")
    (h3 : pyEndsWith (pyLower req.filename) ".pdf" = true)
    (h4 : be.pdfText = Except.ok txt)
    (h5 : CvData.hasKey (extract_cv_info be txt).1 "error" = true) :
    (upload_and_process_cv be req).1.status = 500 ∧
    ∃ m, (upload_and_process_cv be req).1.body = RespBody.errMsg m := by
  simp only [upload_and_process_cv]
  rw [if_neg (by simp [h1]), if_neg (by simp [h2]), if_neg (by simp [h3]), h4]
  simp [h5]

/-- Witness for C4's amended theorem: a concrete upload whose
extraction call raises yields a 500 error response. -/
theorem upload_returns_error_on_extraction_failure_witness :
    (upload_and_process_cv beC4 reqC4).1.status = 500 ∧
    ∃ m, (upload_and_process_cv beC4 reqC4).1.body = RespBody.errMsg m :=
  upload_returns_error_on_extraction_failure beC4 reqC4 "cv text" rfl (by decide) (by decide)
    rfl (by decide)

/-- C4 as stated is false: a document whose extraction fails is not
silently omitted — the concrete request gets a 500 error response. -/
theorem silent_omission_claim_false : ¬ C4Claim := by
  intro h
  have h2 := (h beC4 reqC4 "cv text" rfl (by decide) (by decide) rfl).1
  exact h2 (by decide)

/-- C10 (confirmed): a request with no file part, an empty filename, or
a filename not ending in ".pdf" case-insensitively is rejected with a
400 error object before any PDF parsing or backend call. -/
theorem upload_rejects_bad_file_requests (be : Backend) (req : UploadRequest)
    (h : req.hasFilePart = false ∨ req.filename = "" ∨
      pyEndsWith (pyLower req.filename) ".pdf" = false) :
    (upload_and_process_cv be req).1.status = 400 ∧
    (∃ m, (upload_and_process_cv be req).1.body = RespBody.errMsg m) ∧
    (upload_and_process_cv be req).2 = [] := by
  by_cases h1 : req.hasFilePart = false
  · simp [upload_and_process_cv, if_pos h1]
  · by_cases h2 : req.filename = ""
    · simp [upload_and_process_cv, if_neg h1, if_pos h2]
    · by_cases h3 : pyEndsWith (pyLower req.filename) ".pdf" = false
      · simp [upload_and_process_cv, if_neg h1, if_neg h2, if_pos h3]
      · rcases h with h | h | h <;> contradiction

/-- Witness for C10's theorem: a concrete request with no file part is
rejected with 400 and no outbound call. -/
theorem upload_rejects_bad_file_requests_witness :
    (upload_and_process_cv beC4 reqBad).1.status = 400 ∧
    (∃ m, (upload_and_process_cv beC4 reqBad).1.body = RespBody.errMsg m) ∧
    (upload_and_process_cv beC4 reqBad).2 = [] :=
  upload_rejects_bad_file_requests beC4 reqBad (Or.inl rfl)

/-- C6 (amended): with the province absent, the broader City field is
preferred as the inference input and Town is the fallback
(`cv_data.get("City") or cv_data.get("Town")`); with neither location
truthy the province stays null and no inference call is made. -/
theorem province_prefers_city_over_town (g : Oracle) (cv : CvData)
    (hp : truthy (CvData.get cv "Province") = false) :
    (truthy (CvData.get cv "City") = true →
      (resolveProvince true g cv).2.2 =
        [CallEvent.provinceCall (pyStr (CvData.get cv "City"))]) ∧
    (truthy (CvData.get cv "City") = false → truthy (CvData.get cv "Town") = true →
      (resolveProvince true g cv).2.2 =
        [CallEvent.provinceCall (pyStr (CvData.get cv "Town"))]) ∧
    (truthy (CvData.get cv "City") = false → truthy (CvData.get cv "Town") = false →
      (resolveProvince true g cv).1 = none ∧ (resolveProvince true g cv).2.2 = []) := by
  have hp' : ¬ truthy (CvData.get cv "Province") = true := by simp [hp]
  refine ⟨?_, ?_, ?_⟩
  · intro hc
    have hloc : pyOr (CvData.get cv "City") (CvData.get cv "Town") = CvData.get cv "City" := by
      simp [pyOr, hc]
    simp only [resolveProvince]
    rw [if_neg hp', hloc, if_pos hc]
    dsimp only
    simp only [get_province_from_location]
    rw [if_neg (by simp), if_neg (by simp [hc])]
    split <;> rfl
  · intro hc ht
    have hloc : pyOr (CvData.get cv "City") (CvData.get cv "Town") = CvData.get cv "Town" := by
      simp [pyOr, hc]
    simp only [resolveProvince]
    rw [if_neg hp', hloc, if_pos ht]
    dsimp only
    simp only [get_province_from_location]
    rw [if_neg (by simp), if_neg (by simp [ht])]
    split <;> rfl
  · intro hc ht
    have hloc : pyOr (CvData.get cv "City") (CvData.get cv "Town") = CvData.get cv "Town" := by
      simp [pyOr, hc]
    simp only [resolveProvince]
    rw [if_neg hp', hloc, if_neg (by simp [ht])]
    exact ⟨rfl, rfl⟩

/-- Witness for C6's amended theorem: with Town "Soweto" and City
"Durban" and no Province, the one inference call is made on the City. -/
theorem province_prefers_city_over_town_witness :
    (resolveProvince true gC6 cvC6).2.2 =
      [CallEvent.provinceCall (pyStr (CvData.get cvC6 "City"))] :=
  (province_prefers_city_over_town gC6 cvC6 (by decide)).1 (by decide)

/-- C6 as stated is false: with both Town and City present, the call is
made on the City, not on the preferred-by-the-claim Town. -/
theorem town_preference_claim_false : ¬ C6Claim := by
  intro h
  have h2 := (h gC6 cvC6 (by decide)).1 (by decide)
  exact absurd h2 (by decide)

/-- C7 (amended): the export fails fast before any external call with a
400 only when the parsed payload is falsy (and the services are
configured), and with a 500 when a service is unconfigured; no
routing-label validation exists — every truthy payload proceeds
straight to the sheet-creation call whatever labels it carries. -/
theorem export_validation_scope (env : SheetsEnv) (payload : Option CvData) :
    (env.sheetsOk = true → env.driveOk = true → payloadTruthy payload = false →
      (export_to_sheets env payload).1.status = 400 ∧ (export_to_sheets env payload).2 = []) ∧
    (env.sheetsOk = false ∨ env.driveOk = false →
      (export_to_sheets env payload).1.status = 500 ∧ (export_to_sheets env payload).2 = []) ∧
    (env.sheetsOk = true → env.driveOk = true → payloadTruthy payload = true →
      ∃ t es, (export_to_sheets env payload).2 = ExportEvent.createCall t :: es) := by
  refine ⟨?_, ?_, ?_⟩
  · intro hs hd hp
    have hserv : ¬(env.sheetsOk = false ∨ env.driveOk = false) := by
      intro hc
      rcases hc with hc | hc <;> simp_all
    simp only [export_to_sheets]
    rw [if_neg hserv, if_pos hp]
    exact ⟨rfl, rfl⟩
  · intro hc
    simp only [export_to_sheets]
    rw [if_pos hc]
    exact ⟨rfl, rfl⟩
  · intro hs hd hp
    have hserv : ¬(env.sheetsOk = false ∨ env.driveOk = false) := by
      intro hc
      rcases hc with hc | hc <;> simp_all
    have hp' : ¬ payloadTruthy payload = false := by simp [hp]
    simp only [export_to_sheets]
    rw [if_neg hserv, if_neg hp']
    split
    · exact ⟨_, _, rfl⟩
    · split
      · exact ⟨_, _, rfl⟩
      · split
        · exact ⟨_, _, rfl⟩
        · exact ⟨_, _, rfl⟩

/-- Witness for C7's amended theorem: a missing payload is rejected
with 400 before any Google API call. -/
theorem export_validation_scope_witness :
    (export_to_sheets envOk none).1.status = 400 ∧ (export_to_sheets envOk none).2 = [] :=
  (export_validation_scope envOk none).1 rfl rfl rfl

/-- C7 as stated is false: a payload whose record carries an unknown
routing label is not rejected — the export proceeds to the external
calls and succeeds. -/
theorem label_validation_claim_false : ¬ C7Claim := by
  intro h
  have h2 := (h envOk pC7 rfl rfl (Or.inr ⟨[("label", some "zzz")], rfl, by decide⟩)).1
  exact absurd h2 (by decide)

/-- C8 (amended): the block written to the newly created sheet is one
row per payload field, each row being `[field name, value]`, in payload
order; no schema header row is written. -/
theorem export_writes_field_value_rows (env : SheetsEnv) (cv : CvData)
    (vs : List (List (Option String)))
    (h : updatedRows (export_to_sheets env (some cv)).2 = some vs) :
    vs = cv.map fun kv => [some kv.1, kv.2] := by
  simp only [export_to_sheets] at h
  split at h
  · simp [updatedRows] at h
  · split at h
    · simp [updatedRows] at h
    · split at h
      · simp [updatedRows] at h
      · split at h
        · simp only [updatedRows, List.findSome?] at h
          exact (Option.some_inj.mp h).symm
        · split at h
          · simp only [updatedRows, List.findSome?] at h
            exact (Option.some_inj.mp h).symm
          · simp only [updatedRows, List.findSome?] at h
            exact (Option.some_inj.mp h).symm

/-- Witness for C8's amended theorem on a concrete one-field payload. -/
theorem export_writes_field_value_rows_witness :
    updatedRows (export_to_sheets envOk (some cvC8)).2 =
      some [[some "Name and Surname", some "Jane Doe"]] ∧
    [[some "Name and Surname", some "Jane Doe"]] = cvC8.map fun kv => [some kv.1, kv.2] :=
  ⟨by decide, export_writes_field_value_rows envOk cvC8 _ (by decide)⟩

/-- C8 as stated is false: the first written row of a concrete export
is a `[field name, value]` pair, not the 16-column schema header row. -/
theorem header_row_claim_false : ¬ C8Claim := by
  intro h
  have h2 := (h envOk cvC8 [[some "Name and Surname", some "Jane Doe"]] (by decide)).1
  exact absurd h2 (by decide)

/-- C9 (amended): when the text model is configured, a null,
`"Unknown"` or `"Error"` province yields a null estimate with no
inference call; when it is unconfigured, the function returns the
`"Error"` sentinel — not null — still without any call. -/
theorem province_language_null_cases (g : Oracle) (prov : Option String) :
    ((prov = none ∨ prov = some "Unknown" ∨ prov = some "Error") →
      get_dominant_language_for_province true g prov = (none, [])) ∧
    get_dominant_language_for_province false g prov = (some "Error", []) := by
  constructor
  · intro h
    rcases h with h | h | h <;> subst h <;> rfl
  · rfl

/-- Witness for C9's amended theorem at a null province. -/
theorem province_language_null_cases_witness :
    get_dominant_language_for_province true oracleNone none = (none, []) ∧
    get_dominant_language_for_province false oracleNone none = (some "Error", []) :=
  ⟨(province_language_null_cases oracleNone none).1 (Or.inl rfl),
   (province_language_null_cases oracleNone none).2⟩

/-- C9 as stated is false: with the text model unconfigured, a null
province yields the `"Error"` sentinel rather than a null estimate. -/
theorem province_language_claim_false : ¬ C9Claim := by
  intro h
  exact absurd (h false oracleNone none (Or.inl rfl)) (by decide)
